import Mathlib

/-!
Shallow embedding of src/material/frontend/views/detail.py, the class
DetailModelView, a thin wrapper over the django generic DetailView.

Modelling conventions:
- Machine objects of the framework are plain Lean structures.  A model
  field (django Field) is fused with the per-object state that the view
  reads from it: its attname, verbose name, the AutoField and
  auto_created metadata flags, whether the object exposes a
  choice-display accessor named get_<attname>_display, the value that
  accessor would return, and the raw stored value (Option, since the
  stored value may be None).
- Fallible code returns Except PyError; PermissionDenied,
  ImproperlyConfigured and attribute access on None become explicit
  error values.
- External collaborators are parameters: the permission backend is the
  function has_perm on the request user, the optional viewset is a
  record of three predicates receiving the request and the object, the
  URL resolver reverse and the base-class context assembly are small
  model functions of the framework.
-/

/-- Model metadata, the part of django Options the view reads. -/
structure ModelMeta where
  app_label : String
  model_name : String
deriving DecidableEq, Repr

/-- A model field together with the state the view reads from the
current object for that field: hasDisplay models
hasattr(obj, get_<attname>_display), displayValue the result of calling
that accessor, raw the result of getattr(obj, attname) with none for
the python None. -/
structure ModelField where
  attname : String
  verbose_name : String
  isAutoField : Bool
  auto_created : Bool
  hasDisplay : Bool
  displayValue : String
  raw : Option String
deriving DecidableEq, Repr

/-- A database object: its model class metadata, the field list of
obj._meta.fields fused with the object values, and the primary key. -/
structure DbObject where
  cls : ModelMeta
  fields : List ModelField
  pk : Nat
deriving DecidableEq, Repr

/-- The request user: a name and the permission backend, queried as
has_perm(perm_string, obj). -/
structure User where
  username : String
  has_perm : String → DbObject → Bool

/-- The request; the view only reads request.user. -/
structure Request where
  user : User

/-- The optional viewset collaborator with its three permission
predicates, each receiving the request and the object. -/
structure Viewset where
  has_view_permission : Request → DbObject → Bool
  has_change_permission : Request → DbObject → Bool
  has_delete_permission : Request → DbObject → Bool

/-- The value of the fields class attribute: the string __all__ or an
explicit list of field names. -/
inductive FieldsSpec where
  | all
  | names (l : List String)
deriving DecidableEq, Repr

/-- Python exceptions the methods can raise: PermissionDenied,
ImproperlyConfigured (with its two message shapes from the source), and
AttributeError from attribute access on None. -/
inductive ConfigErrorKind where
  | bothFieldsAndFormClass
  | withoutFields (class_name : String)
deriving DecidableEq, Repr

inductive PyError where
  | permissionDenied
  | improperlyConfigured (kind : ConfigErrorKind)
  | attributeError
deriving DecidableEq, Repr

/-- The result of get_form_class: either the explicitly configured form
class (kept opaque as an id) or the product of
modelform_factory(model, fields). -/
inductive FormSpec where
  | explicit (id : Nat)
  | factory (model : ModelMeta) (fields : FieldsSpec)
deriving DecidableEq, Repr

/-- The view instance state: the four class attributes of
DetailModelView (viewset, form_class, layout, fields), the attributes
inherited from the framework view (model, object, template_name,
template_name_suffix), the model of get_queryset(), and the class name
used in one error message. -/
structure View where
  viewset : Option Viewset
  form_class : Option Nat
  layout : Option Nat
  fields : Option FieldsSpec
  model : Option ModelMeta
  obj : Option DbObject
  queryset_model : ModelMeta
  template_name : Option String
  template_name_suffix : String
  class_name : String

/-- The constructor body: after the base initialization, if form_class
is None and fields is None, set fields to __all__. -/
def init (v : View) : View :=
  if v.form_class = none ∧ v.fields = none then { v with fields := some .all } else v

/-- Python str.title for the ASCII range: a letter after a non-letter
is uppercased, a letter after a letter is lowercased. -/
def pyTitleGo : Bool → List Char → List Char
  | _, [] => []
  | prevAlpha, c :: cs =>
    let c2 := if c.isAlpha then (if prevAlpha then c.toLower else c.toUpper) else c
    c2 :: pyTitleGo c.isAlpha cs

def pyTitle (s : String) : String :=
  ⟨pyTitleGo false s.data⟩

/-- The loop body of get_object_data for one field, exactly as the
source indents it: AutoField instances and auto_created fields are
skipped; otherwise the choice-display accessor name is formed and, when
the object has that attribute, its value is computed but the yield
statement is inside the other branch, so nothing is yielded; without
the accessor the raw value is yielded under the titled verbose name
unless it is None. -/
def fieldEntry (f : ModelField) : List (String × String) :=
  if f.isAutoField then []
  else if f.auto_created then []
  else if f.hasDisplay then
    []
  else
    match f.raw with
    | some v => [(pyTitle f.verbose_name, v)]
    | none => []

/-- get_object_data: the finite sequence the generator produces over
obj._meta.fields. -/
def get_object_data (o : DbObject) : List (String × String) :=
  o.fields.flatMap fieldEntry

/-- django get_permission_codename(action, opts), modelled from the
framework: the string action_modelname. -/
def get_permission_codename (action : String) (opts : ModelMeta) : String :=
  action ++ "_" ++ opts.model_name

/-- has_change_permission: delegate to the viewset when configured,
otherwise query the backend with app_label.change_modelname. -/
def has_change_permission (v : View) (req : Request) (obj : DbObject) : Except PyError Bool :=
  match v.viewset with
  | some vs => .ok (vs.has_change_permission req obj)
  | none =>
    match v.model with
    | none => .error .attributeError
    | some opts =>
      .ok (req.user.has_perm (opts.app_label ++ "." ++ get_permission_codename "change" opts) obj)

/-- has_view_permission: delegate to the viewset when configured,
otherwise query the backend with app_label.view_modelname and fall back
to has_change_permission. -/
def has_view_permission (v : View) (req : Request) (obj : DbObject) : Except PyError Bool :=
  match v.viewset with
  | some vs => .ok (vs.has_view_permission req obj)
  | none =>
    match v.model with
    | none => .error .attributeError
    | some opts =>
      if req.user.has_perm (opts.app_label ++ "." ++ get_permission_codename "view" opts) obj
      then .ok true
      else has_change_permission v req obj

/-- has_delete_permission: delegate to the viewset when configured,
otherwise query the backend with app_label.delete_modelname. -/
def has_delete_permission (v : View) (req : Request) (obj : DbObject) : Except PyError Bool :=
  match v.viewset with
  | some vs => .ok (vs.has_delete_permission req obj)
  | none =>
    match v.model with
    | none => .error .attributeError
    | some opts =>
      .ok (req.user.has_perm (opts.app_label ++ "." ++ get_permission_codename "delete" opts) obj)

/-- get_object: the base retrieval result is a parameter (it may itself
fail); afterwards PermissionDenied is raised unless has_view_permission
holds, otherwise the retrieved object is returned unchanged. -/
def get_object (v : View) (req : Request) (sup : Except PyError DbObject) :
    Except PyError DbObject := do
  let obj ← sup
  let perm ← has_view_permission v req obj
  if perm then pure obj else .error .permissionDenied

/-- Model resolution inside get_form_class: the explicit model, else
the class of the current object, else the queryset model. -/
def resolveFormModel (v : View) : ModelMeta :=
  match v.model with
  | some m => m
  | none =>
    match v.obj with
    | some o => o.cls
    | none => v.queryset_model

/-- get_form_class: ImproperlyConfigured when fields and form_class are
both set; the explicit form class when set; otherwise resolve the model
and build a modelform, raising ImproperlyConfigured when fields is
None. -/
def get_form_class (v : View) : Except PyError FormSpec :=
  if v.fields.isSome ∧ v.form_class.isSome then
    .error (.improperlyConfigured .bothFieldsAndFormClass)
  else
    match v.form_class with
    | some fc => .ok (.explicit fc)
    | none =>
      let model := resolveFormModel v
      match v.fields with
      | none => .error (.improperlyConfigured (.withoutFields v.class_name))
      | some fs => .ok (.factory model fs)

/-- django reverse, modelled from the framework: an injective encoding
of the view name and the positional argument into a URL string. -/
def reverse (viewname : String) (arg : Nat) : String :=
  "/" ++ viewname ++ "/" ++ toString arg ++ "/"

/-- A context value: the object data list, a URL, the bound form, the
object itself, or the view reference the base class inserts. -/
inductive CtxVal where
  | objectData (entries : List (String × String))
  | url (u : String)
  | formVal (f : FormSpec)
  | objVal (o : DbObject)
  | viewVal
deriving DecidableEq, Repr

/-- The rendering context as an ordered key-value list. -/
def Context := List (String × CtxVal)

/-- The base-class contribution to the context, modelled from the
framework mixins: the object under the key object, then the kwargs of
the subclass, then the view reference. -/
def super_context_data (o : DbObject) (kwargs : List (String × CtxVal)) :
    List (String × CtxVal) :=
  ("object", CtxVal.objVal o) :: kwargs ++ [("view", CtxVal.viewVal)]

/-- get_context_data: reads self.model._meta and self.object, inserts
object_data, the change and delete URLs gated on the respective
permission checks, and the bound form, then defers to the base
class. -/
def get_context_data (v : View) (req : Request) : Except PyError (List (String × CtxVal)) :=
  match v.model with
  | none => .error .attributeError
  | some opts =>
    match v.obj with
    | none => .error .attributeError
    | some o => do
      let hasChange ← has_change_permission v req o
      let hasDelete ← has_delete_permission v req o
      let fc ← get_form_class v
      let kwargs :=
        [("object_data", CtxVal.objectData (get_object_data o))]
        ++ (if hasChange then
              [("change_url", CtxVal.url
                (reverse (opts.app_label ++ ":" ++ opts.model_name ++ "_change") o.pk))]
            else [])
        ++ (if hasDelete then
              [("delete_url", CtxVal.url
                (reverse (opts.app_label ++ ":" ++ opts.model_name ++ "_delete") o.pk))]
            else [])
        ++ [("form", CtxVal.formVal fc)]
      pure (super_context_data o kwargs)

/-- get_template_names: the explicit template name alone when
configured, otherwise the app and model specific name followed by the
generic fallback. -/
def get_template_names (v : View) : Except PyError (List String) :=
  match v.template_name with
  | some t => .ok [t]
  | none =>
    match v.model with
    | none => .error .attributeError
    | some opts =>
      .ok [opts.app_label ++ "/" ++ opts.model_name ++ v.template_name_suffix ++ ".html",
           "material/frontend/views/detail.html"]

/-! Concrete fixtures used by counterexamples and witnesses. -/

def demoOpts : ModelMeta := { app_label := "shop", model_name := "order" }

def choiceField : ModelField :=
  { attname := "status", verbose_name := "status", isAutoField := false,
    auto_created := false, hasDisplay := true, displayValue := "Paid", raw := some "1" }

def plainField : ModelField :=
  { attname := "comment", verbose_name := "comment", isAutoField := false,
    auto_created := false, hasDisplay := false, displayValue := "", raw := some "hello" }

def autoPkField : ModelField :=
  { attname := "id", verbose_name := "id", isAutoField := true,
    auto_created := true, hasDisplay := false, displayValue := "", raw := some "7" }

def demoObj : DbObject :=
  { cls := demoOpts, fields := [autoPkField, choiceField, plainField], pk := 7 }

def baseView : View :=
  { viewset := none, form_class := none, layout := none, fields := some .all,
    model := some demoOpts, obj := none, queryset_model := demoOpts,
    template_name := none, template_name_suffix := "_detail",
    class_name := "DetailModelView" }

def anyReq : Request := { user := { username := "alice", has_perm := fun _ _ => false } }

def grantAllReq : Request := { user := { username := "bob", has_perm := fun _ _ => true } }

/-- C1: evaluation at the failing input. demoObj has three fields: the
auto primary key, a choice field (status, with a display accessor
returning Paid and stored value 1) and a plain field. get_object_data
yields only the plain field pair: the choice field contributes nothing,
because the yield statement of the source sits inside the branch for
fields without a display accessor, while the claim (and the method
docstring) require the pair (Status, Paid) to be yielded. -/
theorem C1_choice_display_dropped :
    get_object_data demoObj = [("Comment", "hello")] := by decide

/-- A viewset that grants change but not view. -/
def changeOnlyViewset : Viewset :=
  { has_view_permission := fun _ _ => false,
    has_change_permission := fun _ _ => true,
    has_delete_permission := fun _ _ => false }

def changeOnlyView : View := { baseView with viewset := some changeOnlyViewset }

/-- C2 counterexample: with a viewset configured that grants change but
not view, has_change_permission is true while has_view_permission is
false, so the claim that the implication holds regardless of
configuration fails. -/
theorem C2_viewset_change_without_view :
    has_change_permission changeOnlyView anyReq demoObj = Except.ok true ∧
    has_view_permission changeOnlyView anyReq demoObj = Except.ok false :=
  ⟨rfl, rfl⟩

/-- C2 (amended): when no viewset is configured, has_view_permission
returns true whenever has_change_permission returns true, regardless of
the direct view-permission grant. -/
theorem C2_change_implies_view_without_viewset (v : View) (req : Request) (obj : DbObject)
    (h : v.viewset = none) (hc : has_change_permission v req obj = Except.ok true) :
    has_view_permission v req obj = Except.ok true := by
  unfold has_view_permission
  rw [h]
  cases hm : v.model with
  | none =>
    unfold has_change_permission at hc
    rw [h, hm] at hc
    exact absurd hc (by simp)
  | some opts =>
    by_cases hp : req.user.has_perm (opts.app_label ++ "." ++ get_permission_codename "view" opts) obj
    · simp [hp]
    · simp [hp, hc]

/-- C2 witness: the amended implication at a concrete view with no
viewset and a user granted every backend permission. -/
theorem C2_change_implies_view_witness :
    has_view_permission baseView grantAllReq demoObj = Except.ok true :=
  C2_change_implies_view_without_viewset baseView grantAllReq demoObj rfl rfl

/-- C3: get_object raises PermissionDenied (not a missing-object error)
exactly when has_view_permission is false, and returns the retrieved
object unchanged when it is true. -/
theorem C3_get_object_gates_on_view_permission (v : View) (req : Request) (obj : DbObject) :
    (has_view_permission v req obj = Except.ok false →
      get_object v req (Except.ok obj) = Except.error PyError.permissionDenied) ∧
    (has_view_permission v req obj = Except.ok true →
      get_object v req (Except.ok obj) = Except.ok obj) := by
  constructor <;> intro h <;> simp [get_object, bind, Except.bind, h, pure, Except.pure]

/-- C3 witness: at a concrete view, a user with no backend grants is
denied with PermissionDenied, and a user with every grant receives the
retrieved object unchanged. -/
theorem C3_get_object_witness :
    get_object baseView anyReq (Except.ok demoObj) = Except.error PyError.permissionDenied ∧
    get_object baseView grantAllReq (Except.ok demoObj) = Except.ok demoObj :=
  ⟨(C3_get_object_gates_on_view_permission baseView anyReq demoObj).1 rfl,
   (C3_get_object_gates_on_view_permission baseView grantAllReq demoObj).2 rfl⟩

/-- C4: get_form_class raises ImproperlyConfigured when fields and
form_class are both set, raises the missing-fields ImproperlyConfigured
when both are unset, and in the two remaining cases returns a form
class without error: the explicit form class, or a modelform built from
the resolved model and the field list. -/
theorem C4_get_form_class_config (v : View) :
    (v.fields.isSome = true → v.form_class.isSome = true →
      get_form_class v =
        Except.error (PyError.improperlyConfigured ConfigErrorKind.bothFieldsAndFormClass)) ∧
    (v.fields = none → v.form_class = none →
      get_form_class v =
        Except.error (PyError.improperlyConfigured (ConfigErrorKind.withoutFields v.class_name))) ∧
    (∀ fc, v.form_class = some fc → v.fields = none →
      get_form_class v = Except.ok (FormSpec.explicit fc)) ∧
    (∀ fs, v.fields = some fs → v.form_class = none →
      get_form_class v = Except.ok (FormSpec.factory (resolveFormModel v) fs)) := by
  refine ⟨?_, ?_, ?_, ?_⟩
  · intro h1 h2
    simp [get_form_class, h1, h2]
  · intro h1 h2
    simp [get_form_class, h1, h2]
  · intro fc h1 h2
    simp [get_form_class, h1, h2]
  · intro fs h1 h2
    simp [get_form_class, h1, h2]

def bothSetView : View := { baseView with fields := some .all, form_class := some 1 }

def neitherSetView : View := { baseView with fields := none, form_class := none }

def formOnlyView : View := { baseView with fields := none, form_class := some 2 }

/-- C4 witness: the four cases at concrete views; baseView carries only
a field list, formOnlyView only a form class. -/
theorem C4_get_form_class_witness :
    get_form_class bothSetView =
      Except.error (PyError.improperlyConfigured ConfigErrorKind.bothFieldsAndFormClass) ∧
    get_form_class neitherSetView =
      Except.error (PyError.improperlyConfigured (ConfigErrorKind.withoutFields "DetailModelView")) ∧
    get_form_class formOnlyView = Except.ok (FormSpec.explicit 2) ∧
    get_form_class baseView = Except.ok (FormSpec.factory demoOpts FieldsSpec.all) :=
  ⟨(C4_get_form_class_config bothSetView).1 rfl rfl,
   (C4_get_form_class_config neitherSetView).2.1 rfl rfl,
   (C4_get_form_class_config formOnlyView).2.2.1 2 rfl rfl,
   (C4_get_form_class_config baseView).2.2.2 FieldsSpec.all rfl rfl⟩

/-- C6: get_object_data produces no pair for auto-generated primary key
fields or auto-created fields: removing every such field from the field
list leaves the produced sequence unchanged. -/
theorem C6_auto_fields_excluded (o : DbObject) :
    get_object_data o =
      get_object_data
        { o with fields := o.fields.filter (fun f => !f.isAutoField && !f.auto_created) } := by
  simp only [get_object_data]
  induction o.fields with
  | nil => rfl
  | cons f fs ih =>
    by_cases h1 : f.isAutoField <;> by_cases h2 : f.auto_created <;>
      simp [List.filter_cons, fieldEntry, h1, h2, ih]

/-- C7: get_template_names returns exactly the singleton list of the
configured template name when one is set; otherwise it returns the
two-element list of the app and model specific name followed by the
generic fallback, in that order. -/
theorem C7_template_names (v : View) :
    (∀ t, v.template_name = some t → get_template_names v = Except.ok [t]) ∧
    (∀ opts, v.template_name = none → v.model = some opts →
      get_template_names v = Except.ok
        [opts.app_label ++ "/" ++ opts.model_name ++ v.template_name_suffix ++ ".html",
         "material/frontend/views/detail.html"]) := by
  constructor
  · intro t h
    simp [get_template_names, h]
  · intro opts h hm
    simp [get_template_names, h, hm]

def namedTemplateView : View := { baseView with template_name := some "custom.html" }

/-- C7 witness: both branches at concrete views. -/
theorem C7_template_names_witness :
    get_template_names namedTemplateView = Except.ok ["custom.html"] ∧
    get_template_names baseView =
      Except.ok ["shop/order_detail.html", "material/frontend/views/detail.html"] :=
  ⟨(C7_template_names namedTemplateView).1 "custom.html" rfl,
   (C7_template_names baseView).2 demoOpts rfl rfl⟩

/-- C8: without a viewset, the three permission predicates query the
backend of the request user with exactly the strings
app_label.change_modelname, app_label.delete_modelname and
app_label.view_modelname; the view predicate additionally falls back to
the change string when the view string is not granted. -/
theorem C8_default_permission_strings (v : View) (req : Request) (obj : DbObject)
    (opts : ModelMeta) (h : v.viewset = none) (hm : v.model = some opts) :
    has_change_permission v req obj =
      Except.ok (req.user.has_perm (opts.app_label ++ "." ++ "change_" ++ opts.model_name) obj) ∧
    has_delete_permission v req obj =
      Except.ok (req.user.has_perm (opts.app_label ++ "." ++ "delete_" ++ opts.model_name) obj) ∧
    has_view_permission v req obj =
      Except.ok ((req.user.has_perm (opts.app_label ++ "." ++ "view_" ++ opts.model_name) obj) ||
        (req.user.has_perm (opts.app_label ++ "." ++ "change_" ++ opts.model_name) obj)) := by
  have echg : opts.app_label ++ "." ++ "change_" ++ opts.model_name
      = opts.app_label ++ "." ++ get_permission_codename "change" opts := by
    rw [String.append_assoc]
    rfl
  have edel : opts.app_label ++ "." ++ "delete_" ++ opts.model_name
      = opts.app_label ++ "." ++ get_permission_codename "delete" opts := by
    rw [String.append_assoc]
    rfl
  have evw : opts.app_label ++ "." ++ "view_" ++ opts.model_name
      = opts.app_label ++ "." ++ get_permission_codename "view" opts := by
    rw [String.append_assoc]
    rfl
  refine ⟨?_, ?_, ?_⟩
  · rw [echg]
    simp [has_change_permission, h, hm]
  · rw [edel]
    simp [has_delete_permission, h, hm]
  · rw [evw, echg]
    by_cases hp : req.user.has_perm (opts.app_label ++ "." ++ get_permission_codename "view" opts) obj
    · simp [has_view_permission, h, hm, hp]
    · simp [has_view_permission, has_change_permission, h, hm, hp]

/-- C8 witness: at a concrete view and a user with no grants, the three
predicates evaluate the claimed backend query results. -/
theorem C8_default_permission_strings_witness :
    has_change_permission baseView anyReq demoObj = Except.ok false ∧
    has_delete_permission baseView anyReq demoObj = Except.ok false ∧
    has_view_permission baseView anyReq demoObj = Except.ok false :=
  C8_default_permission_strings baseView anyReq demoObj demoOpts rfl rfl

/-- A viewset that itself consults the backend of the request user. -/
def snoopViewset : Viewset :=
  { has_view_permission := fun r o => r.user.has_perm "shop.view_order" o,
    has_change_permission := fun r o => r.user.has_perm "shop.change_order" o,
    has_delete_permission := fun r o => r.user.has_perm "shop.delete_order" o }

def snoopView : View := { baseView with viewset := some snoopViewset }

def aliceGranted : Request := { user := { username := "alice", has_perm := fun _ _ => true } }

def aliceDenied : Request := { user := { username := "alice", has_perm := fun _ _ => false } }

/-- C9 counterexample: with a viewset configured whose predicate itself
consults the backend of the request user, two runs that differ only in
the backend permission grants of the same user return different values,
so the result is not independent of the default permission backend. -/
theorem C9_viewset_not_backend_independent :
    aliceGranted.user.username = aliceDenied.user.username ∧
    has_view_permission snoopView aliceGranted demoObj = Except.ok true ∧
    has_view_permission snoopView aliceDenied demoObj = Except.ok false :=
  ⟨rfl, rfl, rfl⟩

/-- C9 (amended): with a viewset configured, each predicate equals
exactly the corresponding viewset result on the request and object, and
the view adds no backend query of its own: whenever the viewset returns
the same verdict on two requests, the view returns the same verdict on
those two requests. -/
theorem C9_viewset_delegation (v : View) (vs : Viewset) (req req2 : Request)
    (obj : DbObject) (h : v.viewset = some vs) :
    has_view_permission v req obj = Except.ok (vs.has_view_permission req obj) ∧
    has_change_permission v req obj = Except.ok (vs.has_change_permission req obj) ∧
    has_delete_permission v req obj = Except.ok (vs.has_delete_permission req obj) ∧
    (vs.has_view_permission req obj = vs.has_view_permission req2 obj →
      has_view_permission v req obj = has_view_permission v req2 obj) ∧
    (vs.has_change_permission req obj = vs.has_change_permission req2 obj →
      has_change_permission v req obj = has_change_permission v req2 obj) ∧
    (vs.has_delete_permission req obj = vs.has_delete_permission req2 obj →
      has_delete_permission v req obj = has_delete_permission v req2 obj) := by
  refine ⟨?_, ?_, ?_, ?_, ?_, ?_⟩ <;>
    simp [has_view_permission, has_change_permission, has_delete_permission, h]

/-- A viewset whose predicates ignore the request entirely. -/
def blindViewset : Viewset :=
  { has_view_permission := fun _ o => decide (o.pk = 7),
    has_change_permission := fun _ _ => false,
    has_delete_permission := fun _ _ => true }

def blindView : View := { baseView with viewset := some blindViewset }

/-- C9 witness: the amended statement at a concrete backend-blind
viewset and two requests differing only in the backend grants. -/
theorem C9_viewset_delegation_witness :
    has_view_permission blindView aliceGranted demoObj = Except.ok true ∧
    has_change_permission blindView aliceGranted demoObj = Except.ok false ∧
    has_delete_permission blindView aliceGranted demoObj = Except.ok true ∧
    has_view_permission blindView aliceGranted demoObj
      = has_view_permission blindView aliceDenied demoObj ∧
    has_change_permission blindView aliceGranted demoObj
      = has_change_permission blindView aliceDenied demoObj ∧
    has_delete_permission blindView aliceGranted demoObj
      = has_delete_permission blindView aliceDenied demoObj :=
  have H := C9_viewset_delegation blindView blindViewset aliceGranted aliceDenied demoObj rfl
  ⟨H.1, H.2.1, H.2.2.1, H.2.2.2.1 rfl, H.2.2.2.2.1 rfl, H.2.2.2.2.2 rfl⟩

/-- Recognizer for the missing-fields configuration error of
get_form_class. -/
def isWithoutFieldsError : Except PyError FormSpec → Bool
  | .error (.improperlyConfigured (.withoutFields _)) => true
  | _ => false

/-- C10: after the constructor runs, at least one of fields and
form_class is set, and get_form_class on the constructed view never
raises the missing-fields configuration error. -/
theorem C10_constructor_default (cfg : View) :
    ((init cfg).fields.isSome || (init cfg).form_class.isSome) = true ∧
    isWithoutFieldsError (get_form_class (init cfg)) = false := by
  cases hfc : cfg.form_class with
  | some fc =>
    cases hfs : cfg.fields with
    | some fs => simp [init, hfc, hfs, get_form_class, isWithoutFieldsError]
    | none => simp [init, hfc, hfs, get_form_class, isWithoutFieldsError]
  | none =>
    cases hfs : cfg.fields with
    | some fs => simp [init, hfc, hfs, get_form_class, isWithoutFieldsError]
    | none => simp [init, hfc, hfs, get_form_class, isWithoutFieldsError]

/-- C5: whenever get_context_data produces a context for the current
object, that context contains the key change_url exactly when
has_change_permission holds for the object, and the key delete_url
exactly when has_delete_permission holds. -/
theorem C5_context_urls_iff_permissions (v : View) (req : Request) (o : DbObject)
    (ctx : List (String × CtxVal)) (ho : v.obj = some o)
    (h : get_context_data v req = Except.ok ctx) :
    (("change_url" ∈ ctx.map Prod.fst) ↔ has_change_permission v req o = Except.ok true) ∧
    (("delete_url" ∈ ctx.map Prod.fst) ↔ has_delete_permission v req o = Except.ok true) := by
  cases hm : v.model with
  | none => simp [get_context_data, hm] at h
  | some opts =>
    simp only [get_context_data, hm, ho] at h
    cases hc : has_change_permission v req o with
    | error e => simp [hc, bind, Except.bind] at h
    | ok bc =>
      cases hd : has_delete_permission v req o with
      | error e => simp [hc, hd, bind, Except.bind] at h
      | ok bd =>
        cases hf : get_form_class v with
        | error e => simp [hc, hd, hf, bind, Except.bind] at h
        | ok fc =>
          simp only [hc, hd, hf, bind, Except.bind, pure, Except.pure, Except.ok.injEq] at h
          subst h
          cases bc <;> cases bd <;>
            simp [super_context_data, hc, hd]

def boundView : View := { baseView with obj := some demoObj }

/-- The context boundView produces for grantAllReq. -/
def demoCtx : List (String × CtxVal) :=
  [("object", CtxVal.objVal demoObj),
   ("object_data", CtxVal.objectData [("Comment", "hello")]),
   ("change_url", CtxVal.url "/shop:order_change/7/"),
   ("delete_url", CtxVal.url "/shop:order_delete/7/"),
   ("form", CtxVal.formVal (FormSpec.factory demoOpts FieldsSpec.all)),
   ("view", CtxVal.viewVal)]

/-- C5 witness: the equivalence at a concrete view, request and
produced context. -/
theorem C5_context_urls_witness :
    ("change_url" ∈ demoCtx.map Prod.fst ↔
      has_change_permission boundView grantAllReq demoObj = Except.ok true) ∧
    ("delete_url" ∈ demoCtx.map Prod.fst ↔
      has_delete_permission boundView grantAllReq demoObj = Except.ok true) :=
  C5_context_urls_iff_permissions boundView grantAllReq demoObj demoCtx rfl rfl
